import Mathlib

/-!
Verification development for the query-execution core in `src/exec.rs`
(a single-node columnar SQL engine).

Shallow-embedding conventions:

* Machine integers (`u8` … `i64`) are modelled as Lean `Int`.  The source
  kernels only compare, copy or parse the element values, so values in range
  behave identically.
* Floating-point columns (`f32`/`f64`) are modelled on the NaN-free,
  integer-valued fragment, again as `Int`: every comparison the claims touch
  agrees with numeric order there.  No claim depends on non-integral or
  non-finite floats.
* Rust `Result<T>` is `Except ExecutionError T`; a computation that can also
  `panic!` / `unimplemented!` / fail an `assert!` returns `Outcome T`, whose
  `panicked` constructor records the abort.  Panic message strings follow the
  source's format strings (without reproducing Rust's exact assert formatting).
* `Struct` / `List` array variants and the `Struct` scalar variant never hit a
  matched arm of any kernel a claim mentions; they are omitted from the model
  (they would only add unreachable catch-all cases).
-/

namespace DFusion

/-- Arrow `DataType` as used by `exec.rs` (`Struct` omitted, see header). -/
inductive DataType where
  | boolean
  | int8
  | int16
  | int32
  | int64
  | uint8
  | uint16
  | uint32
  | uint64
  | float32
  | float64
  | utf8
deriving DecidableEq, Repr, Inhabited

/-- Arrow `Field`: name, data type, nullability. -/
structure Field where
  name : String
  data_type : DataType
  nullable : Bool
deriving DecidableEq, Repr, Inhabited

/-- Arrow `Schema`: ordered list of fields. -/
structure Schema where
  columns : List Field
deriving DecidableEq, Repr, Inhabited

/-- `ScalarValue` from `types.rs` (numeric payloads modelled as `Int`). -/
inductive ScalarValue where
  | booleanS (b : Bool)
  | uint8S (v : Int)
  | uint16S (v : Int)
  | uint32S (v : Int)
  | uint64S (v : Int)
  | int8S (v : Int)
  | int16S (v : Int)
  | int32S (v : Int)
  | int64S (v : Int)
  | float32S (v : Int)
  | float64S (v : Int)
  | utf8S (s : String)
  | nullS
deriving DecidableEq, Repr, Inhabited

/-- `ArrayData`: one typed buffer per primitive (numeric payloads as `Int`;
a `utf8A` element is the byte-string of the row). -/
inductive ArrayData where
  | booleanA (xs : List Bool)
  | uint8A (xs : List Int)
  | uint16A (xs : List Int)
  | uint32A (xs : List Int)
  | uint64A (xs : List Int)
  | int8A (xs : List Int)
  | int16A (xs : List Int)
  | int32A (xs : List Int)
  | int64A (xs : List Int)
  | float32A (xs : List Int)
  | float64A (xs : List Int)
  | utf8A (xs : List String)
deriving DecidableEq, Repr, Inhabited

/-- `Value`: a column (shared array) or a broadcast scalar. -/
inductive Value where
  | column (a : ArrayData)
  | scalar (s : ScalarValue)
deriving DecidableEq, Repr, Inhabited

/-- `ExecutionError` (from `errors.rs`, which is not under `src/`).
`exec.rs` itself only ever constructs the `general` variant; the `ioError`
variant is modelled from the spec: §7's error taxonomy lists `IoError` as a
distinct kind surfaced from file operations. -/
inductive ExecutionError where
  | general (msg : String)
  | ioError (msg : String)
deriving DecidableEq, Repr, Inhabited

/-- Rust `{:?}` (derived `Debug`) rendering of an `ExecutionError`
(string escaping inside the message is not modelled). -/
def ExecutionError.debugFmt : ExecutionError → String
  | .general msg => "General(\"" ++ msg ++ "\")"
  | .ioError msg => "IoError(\"" ++ msg ++ "\")"

/-- Outcome of running Rust code that returns `Result` but may also abort:
`ok`/`err` are the two `Result` constructors, `panicked` records a
`panic!`/`unimplemented!`/failed assertion. -/
inductive Outcome (α : Type) where
  | ok (v : α)
  | err (e : ExecutionError)
  | panicked (msg : String)
deriving DecidableEq, Repr, Inhabited

/-- Lift a `Result` into an `Outcome`. -/
def Outcome.ofExcept : Except ExecutionError α → Outcome α
  | .ok v => .ok v
  | .error e => .err e

/-- `compare_arrays_inner!` macro: element-wise boolean comparison of two
columns.  Matched arms are exactly `Float32, Float64, Int8, Int16, Int32,
Int64` (the unsigned arms are absent in the source); anything else is the
`Unsupported types` error. -/
def compare_arrays_inner (v1 v2 : ArrayData) (f : Int → Int → Bool) :
    Except ExecutionError (List Bool) :=
  match v1, v2 with
  | .float32A a, .float32A b => .ok (List.zipWith f a b)
  | .float64A a, .float64A b => .ok (List.zipWith f a b)
  | .int8A a, .int8A b => .ok (List.zipWith f a b)
  | .int16A a, .int16A b => .ok (List.zipWith f a b)
  | .int32A a, .int32A b => .ok (List.zipWith f a b)
  | .int64A a, .int64A b => .ok (List.zipWith f a b)
  | _, _ => .error (.general "Unsupported types in compare_arrays_inner")

/-- `compare_arrays!` macro: wrap the boolean vector as a Boolean column. -/
def compare_arrays (v1 v2 : ArrayData) (f : Int → Int → Bool) :
    Except ExecutionError Value :=
  (compare_arrays_inner v1 v2 f).map (fun bs => Value.column (.booleanA bs))

/-- `compare_array_with_scalar_inner!` macro: apply `f element scalar` over a
column and a same-type scalar (all ten numeric primitives are matched). -/
def compare_array_with_scalar_inner (v1 : ArrayData) (v2 : ScalarValue)
    (f : Int → Int → Bool) : Except ExecutionError (List Bool) :=
  match v1, v2 with
  | .uint8A a, .uint8S b => .ok (a.map (fun aa => f aa b))
  | .uint16A a, .uint16S b => .ok (a.map (fun aa => f aa b))
  | .uint32A a, .uint32S b => .ok (a.map (fun aa => f aa b))
  | .uint64A a, .uint64S b => .ok (a.map (fun aa => f aa b))
  | .int8A a, .int8S b => .ok (a.map (fun aa => f aa b))
  | .int16A a, .int16S b => .ok (a.map (fun aa => f aa b))
  | .int32A a, .int32S b => .ok (a.map (fun aa => f aa b))
  | .int64A a, .int64S b => .ok (a.map (fun aa => f aa b))
  | .float32A a, .float32S b => .ok (a.map (fun aa => f aa b))
  | .float64A a, .float64S b => .ok (a.map (fun aa => f aa b))
  | _, _ => .error (.general "Unsupported types in compare_array_with_scalar_inner")

/-- `compare_array_with_scalar!` macro: wrap as Boolean column. -/
def compare_array_with_scalar (v1 : ArrayData) (v2 : ScalarValue)
    (f : Int → Int → Bool) : Except ExecutionError Value :=
  (compare_array_with_scalar_inner v1 v2 f).map (fun bs => Value.column (.booleanA bs))

/-- `Value::eq`.  Note the source's Column × Scalar fallthrough passes
`|(aa, bb)| aa != bb` to the comparison macro, and the Scalar × Scalar arm is
`unimplemented!()`. -/
def Value.eq : Value → Value → Outcome Value
  | .column v1, .column v2 =>
      Outcome.ofExcept (compare_arrays v1 v2 (fun aa bb => aa == bb))
  | .column v1, .scalar v2 =>
      match v1, v2 with
      | .utf8A list, .utf8S b =>
          .ok (.column (.booleanA (list.map (fun x => x == b))))
      | a, s => Outcome.ofExcept (compare_array_with_scalar a s (fun aa bb => aa != bb))
  | .scalar v1, .column v2 =>
      Outcome.ofExcept (compare_array_with_scalar v2 v1 (fun aa bb => aa == bb))
  | .scalar _, .scalar _ => .panicked "not implemented"

/-- `Value::not_eq`. -/
def Value.not_eq : Value → Value → Outcome Value
  | .column v1, .column v2 =>
      Outcome.ofExcept (compare_arrays v1 v2 (fun aa bb => aa != bb))
  | .column v1, .scalar v2 =>
      match v1, v2 with
      | .utf8A list, .utf8S b =>
          .ok (.column (.booleanA (list.map (fun x => x != b))))
      | a, s => Outcome.ofExcept (compare_array_with_scalar a s (fun aa bb => aa != bb))
  | .scalar v1, .column v2 =>
      Outcome.ofExcept (compare_array_with_scalar v2 v1 (fun aa bb => aa != bb))
  | .scalar _, .scalar _ => .panicked "not implemented"

/-- `Value::lt`: every arm passes `aa < bb`. -/
def Value.lt : Value → Value → Outcome Value
  | .column v1, .column v2 =>
      Outcome.ofExcept (compare_arrays v1 v2 (fun aa bb => decide (aa < bb)))
  | .column v1, .scalar v2 =>
      Outcome.ofExcept (compare_array_with_scalar v1 v2 (fun aa bb => decide (aa < bb)))
  | .scalar v1, .column v2 =>
      Outcome.ofExcept (compare_array_with_scalar v2 v1 (fun aa bb => decide (aa < bb)))
  | .scalar _, .scalar _ => .panicked "not implemented"

/-- `Value::lt_eq`: every arm passes `aa <= bb`. -/
def Value.lt_eq : Value → Value → Outcome Value
  | .column v1, .column v2 =>
      Outcome.ofExcept (compare_arrays v1 v2 (fun aa bb => decide (aa ≤ bb)))
  | .column v1, .scalar v2 =>
      Outcome.ofExcept (compare_array_with_scalar v1 v2 (fun aa bb => decide (aa ≤ bb)))
  | .scalar v1, .column v2 =>
      Outcome.ofExcept (compare_array_with_scalar v2 v1 (fun aa bb => decide (aa ≤ bb)))
  | .scalar _, .scalar _ => .panicked "not implemented"

/-- `Value::gt`.  Note the source passes `aa >= bb` (not `aa > bb`) in all
three shape arms. -/
def Value.gt : Value → Value → Outcome Value
  | .column v1, .column v2 =>
      Outcome.ofExcept (compare_arrays v1 v2 (fun aa bb => decide (aa ≥ bb)))
  | .column v1, .scalar v2 =>
      Outcome.ofExcept (compare_array_with_scalar v1 v2 (fun aa bb => decide (aa ≥ bb)))
  | .scalar v1, .column v2 =>
      Outcome.ofExcept (compare_array_with_scalar v2 v1 (fun aa bb => decide (aa ≥ bb)))
  | .scalar _, .scalar _ => .panicked "not implemented"

/-- `Value::gt_eq`.  Note the source passes `aa > bb` (not `aa >= bb`) in all
three shape arms. -/
def Value.gt_eq : Value → Value → Outcome Value
  | .column v1, .column v2 =>
      Outcome.ofExcept (compare_arrays v1 v2 (fun aa bb => decide (aa > bb)))
  | .column v1, .scalar v2 =>
      Outcome.ofExcept (compare_array_with_scalar v1 v2 (fun aa bb => decide (aa > bb)))
  | .scalar v1, .column v2 =>
      Outcome.ofExcept (compare_array_with_scalar v2 v1 (fun aa bb => decide (aa > bb)))
  | .scalar _, .scalar _ => .panicked "not implemented"

/-- C1: the claim states that `Value::eq` on a numeric column and a same-type
scalar is true at position i exactly when the elements are equal.  The code's
Column × Scalar fallthrough instead computes `aa != bb`: on the Int64 column
`[1, 2]` against scalar `1`, position 0 holds equal elements yet yields
`false`, and position 1 holds unequal elements yet yields `true` — the exact
negation of the claim.  The Utf8 and Scalar × Column arms do compute equality
as claimed. -/
theorem eq_column_scalar_is_negated :
    Value.eq (.column (.int64A [1, 2])) (.scalar (.int64S 1))
      = .ok (.column (.booleanA [false, true]))
    ∧ Value.eq (.column (.utf8A ["a", "b"])) (.scalar (.utf8S "a"))
      = .ok (.column (.booleanA [true, false]))
    ∧ Value.eq (.scalar (.int64S 1)) (.column (.int64A [1, 2]))
      = .ok (.column (.booleanA [true, false])) := by
  refine ⟨rfl, rfl, rfl⟩

/-- C2: the claim states that `lt`, `lt_eq`, `gt`, `gt_eq` on two same-type
numeric columns compute `<`, `<=`, `>`, `>=` element-wise.  `lt`/`lt_eq` do;
but the code's `gt` passes `>=` and `gt_eq` passes `>` to the inner macro, so
`gt` on `[1]` vs `[1]` yields `true` (1 > 1 is false) and `gt_eq` on `[2]`
vs `[2]` yields `false` (2 >= 2 is true).  Also, `compare_arrays_inner` has
no unsigned arms, so the kernels error out on UInt columns. -/
theorem gt_gt_eq_operators_swapped :
    Value.lt (.column (.int64A [1])) (.column (.int64A [1]))
      = .ok (.column (.booleanA [false]))
    ∧ Value.lt_eq (.column (.int64A [1])) (.column (.int64A [1]))
      = .ok (.column (.booleanA [true]))
    ∧ Value.gt (.column (.int64A [1])) (.column (.int64A [1]))
      = .ok (.column (.booleanA [true]))
    ∧ Value.gt_eq (.column (.int64A [2])) (.column (.int64A [2]))
      = .ok (.column (.booleanA [false]))
    ∧ Value.lt (.column (.uint8A [1])) (.column (.uint8A [2]))
      = .err (.general "Unsupported types in compare_arrays_inner") := by
  refine ⟨rfl, rfl, rfl, rfl, rfl⟩
/-! ## Cast kernels (`cast_primitive!`, `cast_array_from_to!`, `cast_utf8_to!`,
`compile_cast_column`) -/

/-- The ten numeric primitives (targets/sources of value casts). -/
def DataType.isNumeric : DataType → Bool
  | .boolean | .utf8 => false
  | _ => true

/-- A non-empty all-digit character run, read as a decimal `Nat`. -/
def parseDigits (cs : List Char) : Option Nat :=
  if cs ≠ [] ∧ cs.all Char.isDigit then
    some (cs.foldl (fun n c => n * 10 + (c.toNat - 48)) 0)
  else
    none

/-- Optional `+`/`-` sign followed by decimal digits (the shape accepted by
Rust's integer `FromStr`). -/
def parseSignedDigits (s : String) : Option Int :=
  match s.data with
  | '+' :: rest => (parseDigits rest).map (fun n => (n : Int))
  | '-' :: rest => (parseDigits rest).map (fun n => -(n : Int))
  | cs => (parseDigits cs).map (fun n => (n : Int))

/-- Rust `str::parse::<iN/uN>`: signed decimal digits, overflow is a parse
error (modelled by the `[lo, hi]` range check). -/
def parseIntRange (lo hi : Int) (s : String) : Option Int :=
  (parseSignedDigits s).bind (fun v => if lo ≤ v ∧ v ≤ hi then some v else none)

/-- Rust `str::parse::<f32/f64>`, restricted to the integral fragment the
float columns are modelled on (fractional/exponent/`inf`/`nan` forms are
outside the modelled fragment; no claim depends on them). -/
def parseFloatIntegral (s : String) : Option Int :=
  parseSignedDigits s

/-- Rust `str::parse::<bool>`: exactly `true` or `false`. -/
def parseBool (s : String) : Option Bool :=
  if s = "true" then some true else if s = "false" then some false else none

/-- The element parser `x.parse::<$TY>()` used by `cast_utf8_to!` for each
numeric target type. -/
def parseFor : DataType → (String → Option Int)
  | .int8 => parseIntRange (-128) 127
  | .int16 => parseIntRange (-32768) 32767
  | .int32 => parseIntRange (-2147483648) 2147483647
  | .int64 => parseIntRange (-9223372036854775808) 9223372036854775807
  | .uint8 => parseIntRange 0 255
  | .uint16 => parseIntRange 0 65535
  | .uint32 => parseIntRange 0 4294967295
  | .uint64 => parseIntRange 0 18446744073709551615
  | .float32 => parseFloatIntegral
  | .float64 => parseFloatIntegral
  | _ => fun _ => none

/-- `stringify!($TY)` for each numeric target (appears in the cast error). -/
def rustTyName : DataType → String
  | .boolean => "bool"
  | .uint8 => "u8"
  | .int8 => "i8"
  | .uint16 => "u16"
  | .int16 => "i16"
  | .uint32 => "u32"
  | .int32 => "i32"
  | .uint64 => "u64"
  | .int64 => "i64"
  | .float32 => "f32"
  | .float64 => "f64"
  | .utf8 => "String"

/-- Rust `as` conversion into a numeric target on the modelled `Int`
elements: two's-complement wrapping into integer widths; identity into the
float targets (exact on the modelled integral fragment). -/
def wrapTo : DataType → Int → Int
  | .uint8, v => v % 256
  | .uint16, v => v % 65536
  | .uint32, v => v % 4294967296
  | .uint64, v => v % 18446744073709551616
  | .int8, v => (v + 128) % 256 - 128
  | .int16, v => (v + 32768) % 65536 - 32768
  | .int32, v => (v + 2147483648) % 4294967296 - 2147483648
  | .int64, v => (v + 9223372036854775808) % 18446744073709551616 - 9223372036854775808
  | _, v => v

/-- The `ArrayData` constructor for each numeric element type (used by
`cast_primitive!` / `cast_utf8_to!` when assembling the output column). -/
def mkNumericArray : DataType → List Int → ArrayData
  | .int8, xs => .int8A xs
  | .int16, xs => .int16A xs
  | .int32, xs => .int32A xs
  | .int64, xs => .int64A xs
  | .uint8, xs => .uint8A xs
  | .uint16, xs => .uint16A xs
  | .uint32, xs => .uint32A xs
  | .uint64, xs => .uint64A xs
  | .float32, xs => .float32A xs
  | .float64, xs => .float64A xs
  | _, xs => .int64A xs

/-- Parse every element of a list, `none` when any element fails (the
"every element parses" side condition of C7). -/
def parseAll (parse : String → Option α) : List String → Option (List α)
  | [] => some []
  | x :: xs => (parse x).bind (fun v => (parseAll parse xs).map (fun vs => v :: vs))

/-- `cast_utf8_to!` macro, generic over the element parser exactly as the
macro is generic over `$TY`: parse each element in order, returning the
parsed column, or — at the first malformed element — the cast error naming
that element. -/
def cast_utf8_to (parse : String → Option α) (tyName : String) :
    List String → Except ExecutionError (List α)
  | [] => .ok []
  | x :: xs =>
      match parse x with
      | some v => (cast_utf8_to parse tyName xs).map (fun ys => v :: ys)
      | none =>
          .error (.general ("Cannot cast Utf8 value '" ++ x ++ "' to " ++ tyName))

/-- `cast_array_from_to!` macro for a numeric source column: value-cast into
any numeric target, decimal text into `Utf8`, `unimplemented!` otherwise. -/
def cast_array_from_to (data_type : DataType) (list : List Int) : Outcome Value :=
  match data_type with
  | .utf8 => .ok (.column (.utf8A (list.map (fun v => toString v))))
  | .boolean => .panicked "CAST from numeric to Boolean"
  | dt => .ok (.column (mkNumericArray dt (list.map (wrapTo dt))))

/-- The closure produced by `compile_cast_column(data_type)`, applied to its
input value (the source function itself always returns `Ok(closure)`; the
target type is bound into the closure). -/
def compile_cast_column_apply (data_type : DataType) (v : Value) : Outcome Value :=
  match v with
  | .column a =>
      match a with
      | .booleanA _ => .panicked "CAST from Boolean"
      | .uint8A list => cast_array_from_to data_type list
      | .uint16A list => cast_array_from_to data_type list
      | .uint32A list => cast_array_from_to data_type list
      | .uint64A list => cast_array_from_to data_type list
      | .int8A list => cast_array_from_to data_type list
      | .int16A list => cast_array_from_to data_type list
      | .int32A list => cast_array_from_to data_type list
      | .int64A list => cast_array_from_to data_type list
      | .float32A list => cast_array_from_to data_type list
      | .float64A list => cast_array_from_to data_type list
      | .utf8A list =>
          match data_type with
          | .boolean =>
              Outcome.ofExcept ((cast_utf8_to parseBool "bool" list).map
                (fun bs => Value.column (.booleanA bs)))
          | .utf8 => .ok (.column (.utf8A list))
          | dt =>
              Outcome.ofExcept ((cast_utf8_to (parseFor dt) (rustTyName dt) list).map
                (fun vs => Value.column (mkNumericArray dt vs)))
  | .scalar _ => .panicked "CAST from ScalarValue"

/-- On a UTF-8 column with a numeric target, the compiled cast closure is the
`cast_utf8_to!` expansion for that target's parser. -/
theorem compile_cast_column_utf8_numeric (dt : DataType)
    (hdt : dt.isNumeric = true) (list : List String) :
    compile_cast_column_apply dt (.column (.utf8A list))
      = Outcome.ofExcept ((cast_utf8_to (parseFor dt) (rustTyName dt) list).map
          (fun vs => Value.column (mkNumericArray dt vs))) := by
  cases dt <;> first | rfl | simp [DataType.isNumeric] at hdt

/-- If every element parses, `cast_utf8_to` returns the parsed list. -/
theorem cast_utf8_to_ok (parse : String → Option α) (tyName : String)
    (xs : List String) (ys : List α) (h : parseAll parse xs = some ys) :
    cast_utf8_to parse tyName xs = .ok ys := by
  induction xs generalizing ys with
  | nil =>
      simp only [parseAll, Option.some.injEq] at h
      subst h
      rfl
  | cons x rest ih =>
      simp only [parseAll] at h
      cases hx : parse x with
      | none => rw [hx] at h; cases h
      | some v =>
          rw [hx] at h
          simp only [Option.some_bind] at h
          cases hr : parseAll parse rest with
          | none => rw [hr] at h; cases h
          | some vs =>
              rw [hr] at h
              simp only [Option.map_some', Option.some.injEq] at h
              subst h
              simp [cast_utf8_to, hx, ih vs hr, Except.map]

/-- If some element fails to parse, `cast_utf8_to` returns the cast error for
the first failing element. -/
theorem cast_utf8_to_err (parse : String → Option α) (tyName : String)
    (xs : List String) (x : String) (hx : x ∈ xs) (hfail : parse x = none) :
    ∃ x', x' ∈ xs ∧ parse x' = none ∧
      cast_utf8_to parse tyName xs
        = .error (.general ("Cannot cast Utf8 value '" ++ x' ++ "' to " ++ tyName)) := by
  induction xs with
  | nil => cases hx
  | cons y rest ih =>
      cases hy : parse y with
      | none =>
          exact ⟨y, List.mem_cons_self y rest, hy, by simp [cast_utf8_to, hy]⟩
      | some v =>
          have hxr : x ∈ rest := by
            rcases List.mem_cons.mp hx with h | h
            · subst h; rw [hy] at hfail; cases hfail
            · exact h
          obtain ⟨x', hx'mem, hx'fail, hx'eq⟩ := ih hxr
          exact ⟨x', List.mem_cons_of_mem y hx'mem, hx'fail, by
            simp [cast_utf8_to, hy, hx'eq, Except.map]⟩

/-- C7: casting a UTF-8 column to a numeric primitive target parses every
element (returning the parsed column) and fails with a cast error naming the
(first) offending text value when any element is malformed; casting UTF-8 to
UTF-8 is the identity. -/
theorem utf8_cast_parses_or_errors (dt : DataType) (xs : List String) :
    (∀ ivs : List Int, dt.isNumeric = true → parseAll (parseFor dt) xs = some ivs →
      compile_cast_column_apply dt (.column (.utf8A xs))
        = .ok (.column (mkNumericArray dt ivs)))
    ∧ (∀ x, dt.isNumeric = true → x ∈ xs → parseFor dt x = none →
      ∃ x', x' ∈ xs ∧ parseFor dt x' = none ∧
        compile_cast_column_apply dt (.column (.utf8A xs))
          = .err (.general ("Cannot cast Utf8 value '" ++ x' ++ "' to " ++ rustTyName dt)))
    ∧ compile_cast_column_apply .utf8 (.column (.utf8A xs))
        = .ok (.column (.utf8A xs)) := by
  refine ⟨?_, ?_, rfl⟩
  · intro ivs hdt hparse
    rw [compile_cast_column_utf8_numeric dt hdt xs,
      cast_utf8_to_ok (parseFor dt) (rustTyName dt) xs ivs hparse]
    rfl
  · intro x hdt hmem hfail
    obtain ⟨x', hx'mem, hx'fail, hx'eq⟩ :=
      cast_utf8_to_err (parseFor dt) (rustTyName dt) xs x hmem hfail
    exact ⟨x', hx'mem, hx'fail, by
      rw [compile_cast_column_utf8_numeric dt hdt xs, hx'eq]; rfl⟩

/-- Witness for C7 at concrete inputs: Int64 target on `["12", "-3"]`
succeeds with the parsed values; on `["12", "abc"]` it errors naming `abc`;
Utf8 target is identity. -/
theorem utf8_cast_parses_or_errors_witness :
    compile_cast_column_apply .int64 (.column (.utf8A ["12", "-3"]))
      = .ok (.column (.int64A [12, -3]))
    ∧ (∃ x', x' ∈ ["12", "abc"] ∧ parseFor .int64 x' = none ∧
        compile_cast_column_apply .int64 (.column (.utf8A ["12", "abc"]))
          = .err (.general ("Cannot cast Utf8 value '" ++ x' ++ "' to " ++ rustTyName .int64)))
    ∧ compile_cast_column_apply .utf8 (.column (.utf8A ["hi"]))
        = .ok (.column (.utf8A ["hi"])) := by
  refine ⟨?_, ?_, (utf8_cast_parses_or_errors .utf8 ["hi"]).2.2⟩
  · exact (utf8_cast_parses_or_errors .int64 ["12", "-3"]).1 [12, -3] rfl (by decide)
  · exact (utf8_cast_parses_or_errors .int64 ["12", "abc"]).2.1 "abc" rfl
      (by decide) (by decide)
/-! ## Remaining `Value` kernels used by the expression compiler -/

/-- Column length (`Array::len`). -/
def ArrayData.len : ArrayData → Nat
  | .booleanA xs => xs.length
  | .uint8A xs => xs.length
  | .uint16A xs => xs.length
  | .uint32A xs => xs.length
  | .uint64A xs => xs.length
  | .int8A xs => xs.length
  | .int16A xs => xs.length
  | .int32A xs => xs.length
  | .int64A xs => xs.length
  | .float32A xs => xs.length
  | .float64A xs => xs.length
  | .utf8A xs => xs.length

/-- `Value::is_null`: a Boolean column derived from the validity bitmap.  The
model carries no bitmaps (no claim involves null columns), which corresponds
to the source's `None` bitmap branch: every element valid, all `false`.
A scalar input is `unimplemented!()`. -/
def Value.is_null : Value → Outcome Value
  | .column a => .ok (.column (.booleanA (List.replicate a.len false)))
  | .scalar _ => .panicked "not implemented"

/-- `Value::is_not_null` (see `Value.is_null` on bitmaps). -/
def Value.is_not_null : Value → Outcome Value
  | .column a => .ok (.column (.booleanA (List.replicate a.len true)))
  | .scalar _ => .panicked "not implemented"

/-- `column_operations!` macro: element-wise arithmetic on two same-type
numeric columns; a type mismatch is a `panic!` in the source (not an error
value).  The element function is total on `Int`: Rust's overflow and
divide-by-zero panics inside an element operation are not modelled (no claim
involves arithmetic). -/
def column_operations (x y : ArrayData) (f : Int → Int → Int) : Outcome Value :=
  match x, y with
  | .uint8A a, .uint8A b => .ok (.column (.uint8A (List.zipWith f a b)))
  | .uint16A a, .uint16A b => .ok (.column (.uint16A (List.zipWith f a b)))
  | .uint32A a, .uint32A b => .ok (.column (.uint32A (List.zipWith f a b)))
  | .uint64A a, .uint64A b => .ok (.column (.uint64A (List.zipWith f a b)))
  | .int8A a, .int8A b => .ok (.column (.int8A (List.zipWith f a b)))
  | .int16A a, .int16A b => .ok (.column (.int16A (List.zipWith f a b)))
  | .int32A a, .int32A b => .ok (.column (.int32A (List.zipWith f a b)))
  | .int64A a, .int64A b => .ok (.column (.int64A (List.zipWith f a b)))
  | .float32A a, .float32A b => .ok (.column (.float32A (List.zipWith f a b)))
  | .float64A a, .float64A b => .ok (.column (.float64A (List.zipWith f a b)))
  | _, _ => .panicked "Incompatible types for Column and Column"

/-- `scalar_column_operations!` macro (first argument the scalar): each arm
is `scalar_operations!(b, a, F)`, i.e. `f element scalar`; mismatch panics. -/
def scalar_column_operations (x1 : ScalarValue) (x2 : ArrayData)
    (f : Int → Int → Int) : Outcome Value :=
  match x1, x2 with
  | .uint8S a, .uint8A b => .ok (.column (.uint8A (b.map (fun aa => f aa a))))
  | .uint16S a, .uint16A b => .ok (.column (.uint16A (b.map (fun aa => f aa a))))
  | .uint32S a, .uint32A b => .ok (.column (.uint32A (b.map (fun aa => f aa a))))
  | .uint64S a, .uint64A b => .ok (.column (.uint64A (b.map (fun aa => f aa a))))
  | .int8S a, .int8A b => .ok (.column (.int8A (b.map (fun aa => f aa a))))
  | .int16S a, .int16A b => .ok (.column (.int16A (b.map (fun aa => f aa a))))
  | .int32S a, .int32A b => .ok (.column (.int32A (b.map (fun aa => f aa a))))
  | .int64S a, .int64A b => .ok (.column (.int64A (b.map (fun aa => f aa a))))
  | .float32S a, .float32A b => .ok (.column (.float32A (b.map (fun aa => f aa a))))
  | .float64S a, .float64A b => .ok (.column (.float64A (b.map (fun aa => f aa a))))
  | _, _ => .panicked "Cannot combine results for Scalar and Column"

/-- `scalar_scalar_operations!` macro; mismatch panics. -/
def scalar_scalar_operations (x1 x2 : ScalarValue) (f : Int → Int → Int) :
    Outcome Value :=
  match x1, x2 with
  | .uint8S a, .uint8S b => .ok (.scalar (.uint8S (f a b)))
  | .uint16S a, .uint16S b => .ok (.scalar (.uint16S (f a b)))
  | .uint32S a, .uint32S b => .ok (.scalar (.uint32S (f a b)))
  | .uint64S a, .uint64S b => .ok (.scalar (.uint64S (f a b)))
  | .int8S a, .int8S b => .ok (.scalar (.int8S (f a b)))
  | .int16S a, .int16S b => .ok (.scalar (.int16S (f a b)))
  | .int32S a, .int32S b => .ok (.scalar (.int32S (f a b)))
  | .int64S a, .int64S b => .ok (.scalar (.int64S (f a b)))
  | .float32S a, .float32S b => .ok (.scalar (.float32S (f a b)))
  | .float64S a, .float64S b => .ok (.scalar (.float64S (f a b)))
  | _, _ => .panicked "Cannot combine results for Scalar and Scalar"

/-- Shape dispatch shared by `Value::{add, subtract, multiply, divide,
modulo}` (the Column × Scalar arm swaps the arguments into
`scalar_column_operations!(v2, v1, ..)`, exactly as the source does). -/
def Value.arith (f : Int → Int → Int) : Value → Value → Outcome Value
  | .column v1, .column v2 => column_operations v1 v2 f
  | .scalar v1, .column v2 => scalar_column_operations v1 v2 f
  | .column v1, .scalar v2 => scalar_column_operations v2 v1 f
  | .scalar x1, .scalar x2 => scalar_scalar_operations x1 x2 f

/-- `Value::add`. -/
def Value.add (a b : Value) : Outcome Value := Value.arith (fun x y => x + y) a b

/-- `Value::subtract`. -/
def Value.subtract (a b : Value) : Outcome Value := Value.arith (fun x y => x - y) a b

/-- `Value::multiply`. -/
def Value.multiply (a b : Value) : Outcome Value := Value.arith (fun x y => x * y) a b

/-- `Value::divide` (`Int.tdiv` is C-style truncating division; the
divide-by-zero panic of Rust integer division is not modelled — no claim
involves arithmetic). -/
def Value.divide (a b : Value) : Outcome Value := Value.arith Int.tdiv a b

/-- `Value::modulo` (`Int.tmod` matches Rust `%` on in-range values). -/
def Value.modulo (a b : Value) : Outcome Value := Value.arith Int.tmod a b

/-- `Value::and`: Boolean column × Boolean column/scalar, everything else a
panic (`AND expected two boolean inputs`, or `unimplemented!` for the
remaining shapes). -/
def Value.and : Value → Value → Outcome Value
  | .column v1, .column v2 =>
      match v1, v2 with
      | .booleanA l, .booleanA r =>
          .ok (.column (.booleanA (List.zipWith (fun ll rr => ll && rr) l r)))
      | _, _ => .panicked "AND expected two boolean inputs"
  | .column v1, .scalar v2 =>
      match v1, v2 with
      | .booleanA l, .booleanS r =>
          .ok (.column (.booleanA (l.map (fun ll => ll && r))))
      | _, _ => .panicked "AND expected two boolean inputs"
  | _, _ => .panicked "not implemented"

/-- `Value::or` (same shapes as `Value.and`). -/
def Value.or : Value → Value → Outcome Value
  | .column v1, .column v2 =>
      match v1, v2 with
      | .booleanA l, .booleanA r =>
          .ok (.column (.booleanA (List.zipWith (fun ll rr => ll || rr) l r)))
      | _, _ => .panicked "OR expected two boolean inputs"
  | .column v1, .scalar v2 =>
      match v1, v2 with
      | .booleanA l, .booleanS r =>
          .ok (.column (.booleanA (l.map (fun ll => ll || r))))
      | _, _ => .panicked "OR expected two boolean inputs"
  | _, _ => .panicked "not implemented"

/-! ## Expressions, runtime expressions, execution context -/

/-- Binary `Operator` (from `logical.rs`, not under `src/`; variants are the
ones `compile_scalar_expr` matches on, listed by spec §3). -/
inductive Operator where
  | eqOp | notEqOp | ltOp | ltEqOp | gtOp | gtEqOp
  | andOp | orOp
  | plusOp | minusOp | multiplyOp | divideOp | modulusOp
deriving DecidableEq, Repr, Inhabited

/-- Logical `Expr` (from `logical.rs`, not under `src/`; variants are the
ones `compile_scalar_expr` / `compile_expr` match on, listed by spec §3). -/
inductive Expr where
  | literal (v : ScalarValue)
  | column (i : Nat)
  | cast (expr : Expr) (data_type : DataType)
  | isNull (expr : Expr)
  | isNotNull (expr : Expr)
  | binaryExpr (left : Expr) (op : Operator) (right : Expr)
  | sort (expr : Expr) (asc : Bool)
  | scalarFunction (name : String) (args : List Expr) (return_type : DataType)
  | aggregateFunction (name : String) (args : List Expr) (return_type : DataType)
deriving Repr, Inhabited

/-- A `RecordBatch`: one `Value` per column. -/
structure RecordBatch where
  columns : List Value
deriving Inhabited

/-- `AggregateType`. -/
inductive AggregateType where
  | min | max | sum | count | avg
deriving DecidableEq, Repr, Inhabited

/-- `RuntimeExpr`: a compiled closure with its declared output type, or an
aggregate carrying compiled argument evaluators. -/
inductive RuntimeExpr where
  | compiled (f : RecordBatch → Outcome Value) (t : DataType)
  | aggregateFunction (f : AggregateType) (args : List (RecordBatch → Outcome Value))
      (t : DataType)

/-- `RuntimeExpr::get_func` (`panic!()` on the aggregate variant; the model
defers that panic to the call, which no claim path reaches). -/
def RuntimeExpr.get_func : RuntimeExpr → (RecordBatch → Outcome Value)
  | .compiled f _ => f
  | .aggregateFunction _ _ _ => fun _ => .panicked "get_func on AggregateFunction"

/-- `RuntimeExpr::get_type`. -/
def RuntimeExpr.get_type : RuntimeExpr → DataType
  | .compiled _ t => t
  | .aggregateFunction _ _ t => t

/-- Sequencing of `Result`-with-panic computations (Rust's `?` plus panic
propagation). -/
def Outcome.bind : Outcome α → (α → Outcome β) → Outcome β
  | .ok v, f => f v
  | .err e, _ => .err e
  | .panicked m, _ => .panicked m

/-- `ScalarFunction` trait object: declared signature plus implementation. -/
structure ScalarFunction where
  name : String
  args : List Field
  return_type : DataType
  execute : List Value → Except ExecutionError Value

/-- `FunctionMeta` (scalar function metadata registered alongside it). -/
structure FunctionMeta where
  name : String
  args : List Field
  return_type : DataType
deriving DecidableEq, Repr

/-- `DataFrame` (from `dataframe.rs`, not under `src/`): the execution
context only reads its schema (`get_table_meta`) and its logical plan; the
model keeps the schema. -/
structure DataFrame where
  schema : Schema
deriving DecidableEq, Repr

/-- `DFConfig`. -/
inductive DFConfig where
  | Local
  | Remote (etcd : String)
deriving DecidableEq, Repr, Inhabited

/-- `ExecutionContext`: the three registries and the configuration.  The
`HashMap`s are modelled as association lists where insertion prepends and
lookup takes the first match (same lookup semantics as `HashMap::insert` /
`get`). -/
structure ExecutionContext where
  tables : List (String × DataFrame)
  function_meta : List (String × FunctionMeta)
  functions : List (String × ScalarFunction)
  config : DFConfig

/-- `HashMap::get` on the association-list model. -/
def assocLookup (l : List (String × α)) (k : String) : Option α :=
  (l.find? (fun p => p.1 == k)).map (fun p => p.2)

/-- ASCII lowercasing of one character (`A`–`Z` shifted down by 32). -/
def charToLower (c : Char) : Char :=
  if 65 ≤ c.toNat ∧ c.toNat ≤ 90 then Char.ofNat (c.toNat + 32) else c

/-- Rust `str::to_lowercase` (Unicode lowercasing beyond ASCII is not
modelled; every name the source handles is ASCII). -/
def rustToLowercase (s : String) : String :=
  ⟨s.data.map charToLower⟩

/-- `ExecutionContext::local()`. -/
def ExecutionContext.localContext : ExecutionContext :=
  ⟨[], [], [], .Local⟩

/-- `ExecutionContext::register`: note the key is `table_name.to_string()`
verbatim — the table name is NOT lowercased on insertion. -/
def ExecutionContext.register (ctx : ExecutionContext) (table_name : String)
    (df : DataFrame) : ExecutionContext :=
  { ctx with tables := (table_name, df) :: ctx.tables }

/-- `ExecutionContext::register_scalar_function`: both registries are keyed
by `func.name().to_lowercase()`. -/
def ExecutionContext.register_scalar_function (ctx : ExecutionContext)
    (func : ScalarFunction) : ExecutionContext :=
  { ctx with
    function_meta :=
      (rustToLowercase func.name, ⟨func.name, func.args, func.return_type⟩) :: ctx.function_meta,
    functions := (rustToLowercase func.name, func) :: ctx.functions }

/-- `ExecutionContextSchemaProvider::get_table_meta`: lowercases the looked-up
name (but see `ExecutionContext.register`: stored keys are verbatim). -/
def get_table_meta (ctx : ExecutionContext) (name : String) : Option Schema :=
  (assocLookup ctx.tables (rustToLowercase name)).map (fun t => t.schema)

/-- `ExecutionContextSchemaProvider::get_function_meta`: lowercases the
looked-up name. -/
def get_function_meta (ctx : ExecutionContext) (name : String) : Option FunctionMeta :=
  assocLookup ctx.function_meta (rustToLowercase name)

/-- `ExecutionContext::load_scalar_function`: lowercases the looked-up name. -/
def ExecutionContext.load_scalar_function (ctx : ExecutionContext)
    (function_name : String) : Except ExecutionError ScalarFunction :=
  match assocLookup ctx.functions (rustToLowercase function_name) with
  | some f => .ok f
  | none => .error (.general ("Unknown scalar function " ++ function_name))

/-- The `LogicalPlan::TableScan` arm of `create_execution_plan` resolves
`self.tables.borrow().get(table_name)` — the exact name, no lowercasing. -/
def table_scan_lookup (ctx : ExecutionContext) (table_name : String) : Option DataFrame :=
  assocLookup ctx.tables table_name

/-! ## Expression compiler -/

/-- Rust derived `Debug` name of a `DataType` (appears in type-check error
messages). -/
def DataType.debugFmt : DataType → String
  | .boolean => "Boolean"
  | .int8 => "Int8"
  | .int16 => "Int16"
  | .int32 => "Int32"
  | .int64 => "Int64"
  | .uint8 => "UInt8"
  | .uint16 => "UInt16"
  | .uint32 => "UInt32"
  | .uint64 => "UInt64"
  | .float32 => "Float32"
  | .float64 => "Float64"
  | .utf8 => "Utf8"

/-- `cast_scalar_from_to!` macro: precompute the value cast; the produced
closure constantly returns that scalar.  A non-numeric target is
`unimplemented!`. -/
def cast_scalar_from_to (v : Int) (data_type : DataType) : Outcome ScalarValue :=
  match data_type with
  | .uint8 => .ok (.uint8S (wrapTo .uint8 v))
  | .uint16 => .ok (.uint16S (wrapTo .uint16 v))
  | .uint32 => .ok (.uint32S (wrapTo .uint32 v))
  | .uint64 => .ok (.uint64S (wrapTo .uint64 v))
  | .int8 => .ok (.int8S (wrapTo .int8 v))
  | .int16 => .ok (.int16S (wrapTo .int16 v))
  | .int32 => .ok (.int32S (wrapTo .int32 v))
  | .int64 => .ok (.int64S (wrapTo .int64 v))
  | .float32 => .ok (.float32S (wrapTo .float32 v))
  | .float64 => .ok (.float64S (wrapTo .float64 v))
  | _ => .panicked "CAST from numeric scalar to unsupported type"

/-- `compile_cast_scalar`: the constant scalar the compiled closure returns
(Boolean / Utf8 / Struct / Null sources are `unimplemented!`). -/
def compile_cast_scalar (scalar : ScalarValue) (data_type : DataType) :
    Outcome ScalarValue :=
  match scalar with
  | .booleanS _ => .panicked "CAST from scalar Boolean"
  | .uint8S v => cast_scalar_from_to v data_type
  | .uint16S v => cast_scalar_from_to v data_type
  | .uint32S v => cast_scalar_from_to v data_type
  | .uint64S v => cast_scalar_from_to v data_type
  | .int8S v => cast_scalar_from_to v data_type
  | .int16S v => cast_scalar_from_to v data_type
  | .int32S v => cast_scalar_from_to v data_type
  | .int64S v => cast_scalar_from_to v data_type
  | .float32S v => cast_scalar_from_to v data_type
  | .float64S v => cast_scalar_from_to v data_type
  | .utf8S _ => .panicked "CAST from scalar Utf8"
  | .nullS => .panicked "CAST from scalar NULL"

/-- The positional type check of the `ScalarFunction` arm: walk the declared
parameter `Field`s against the compiled arguments' output types, producing
the first mismatch error (`i` is the running argument index). -/
def check_arg_types (name : String) : Nat → List Field → List RuntimeExpr →
    Option ExecutionError
  | _, [], _ => none
  | _, _ :: _, [] => none
  | i, fld :: fs, c :: cs =>
      if fld.data_type ≠ c.get_type then
        some (.general ("Scalar function " ++ name ++ " requires "
          ++ fld.data_type.debugFmt ++ " for argument " ++ toString i
          ++ " but got " ++ c.get_type.debugFmt))
      else
        check_arg_types name (i + 1) fs cs

/-- Evaluate compiled argument closures left to right against a batch
(the `arg_values` collect inside the ScalarFunction closure). -/
def eval_args : List RuntimeExpr → RecordBatch → Outcome (List Value)
  | [], _ => .ok []
  | e :: rest, batch =>
      (e.get_func batch).bind (fun v =>
        (eval_args rest batch).bind (fun vs => .ok (v :: vs)))

mutual

/-- `compile_scalar_expr`: lower a typed expression into a `RuntimeExpr`.
Arm-for-arm translation of the source `match`; note the `Literal` arm's
output type is the hard-coded `DataType::Float64` placeholder (the `//TODO`
in the source). -/
def compile_scalar_expr (ctx : ExecutionContext) (expr : Expr)
    (input_schema : Schema) : Outcome RuntimeExpr :=
  match expr with
  | .literal lit =>
      .ok (.compiled (fun _ => .ok (.scalar lit)) DataType.float64)
  | .column index =>
      match input_schema.columns.get? index with
      | none => .panicked "index out of bounds"
      | some fld =>
          .ok (.compiled
            (fun batch =>
              match batch.columns.get? index with
              | some v => .ok v
              | none => .panicked "index out of bounds")
            fld.data_type)
  | .cast e data_type =>
      match e with
      | .column index =>
          .ok (.compiled
            (fun batch =>
              match batch.columns.get? index with
              | some v => compile_cast_column_apply data_type v
              | none => .panicked "index out of bounds")
            data_type)
      | .literal lit =>
          (compile_cast_scalar lit data_type).bind (fun sv =>
            .ok (.compiled (fun _ => .ok (.scalar sv)) data_type))
      | other =>
          .err (.general ("CAST not implemented for expression " ++ reprStr other))
  | .isNotNull e =>
      (compile_scalar_expr ctx e input_schema).bind (fun ce =>
        .ok (.compiled
          (fun batch => (ce.get_func batch).bind Value.is_not_null)
          DataType.boolean))
  | .isNull e =>
      (compile_scalar_expr ctx e input_schema).bind (fun ce =>
        .ok (.compiled
          (fun batch => (ce.get_func batch).bind Value.is_null)
          DataType.boolean))
  | .binaryExpr left op right =>
      (compile_scalar_expr ctx left input_schema).bind (fun left_expr =>
        (compile_scalar_expr ctx right input_schema).bind (fun right_expr =>
          let op_type := left_expr.get_type
          let combine := fun (k : Value → Value → Outcome Value) (t : DataType) =>
            Outcome.ok (RuntimeExpr.compiled
              (fun batch =>
                (left_expr.get_func batch).bind (fun lv =>
                  (right_expr.get_func batch).bind (fun rv => k lv rv)))
              t)
          match op with
          | .eqOp => combine Value.eq DataType.boolean
          | .notEqOp => combine Value.not_eq DataType.boolean
          | .ltOp => combine Value.lt DataType.boolean
          | .ltEqOp => combine Value.lt_eq DataType.boolean
          | .gtOp => combine Value.gt DataType.boolean
          | .gtEqOp => combine Value.gt_eq DataType.boolean
          | .andOp => combine Value.and DataType.boolean
          | .orOp => combine Value.or DataType.boolean
          | .plusOp => combine Value.add op_type
          | .minusOp => combine Value.subtract op_type
          | .multiplyOp => combine Value.multiply op_type
          | .divideOp => combine Value.divide op_type
          | .modulusOp => combine Value.modulo op_type))
  | .sort e _ =>
      compile_scalar_expr ctx e input_schema
  | .scalarFunction name args return_type =>
      match ctx.load_scalar_function name with
      | .error e => .err e
      | .ok func =>
          let expected_args := func.args
          if expected_args.length ≠ args.length then
            .err (.general ("Function " ++ name ++ " requires "
              ++ toString expected_args.length ++ " parameters but "
              ++ toString args.length ++ " were provided"))
          else
            (compile_args ctx args input_schema).bind (fun compiled_args_ok =>
              match check_arg_types name 0 expected_args compiled_args_ok with
              | some e => .err e
              | none =>
                  .ok (.compiled
                    (fun batch =>
                      (eval_args compiled_args_ok batch).bind (fun arg_values =>
                        Outcome.ofExcept (func.execute arg_values)))
                    return_type))
  | .aggregateFunction _ _ _ =>
      .panicked "Aggregate expressions cannot be compiled yet"

/-- The `collect::<Result<Vec<RuntimeExpr>>>()` over argument expressions:
compile left to right, stopping at the first error (a panic aborts). -/
def compile_args (ctx : ExecutionContext) (es : List Expr)
    (input_schema : Schema) : Outcome (List RuntimeExpr) :=
  match es with
  | [] => .ok []
  | e :: rest =>
      match compile_scalar_expr ctx e input_schema with
      | .ok r =>
          match compile_args ctx rest input_schema with
          | .ok rs => .ok (r :: rs)
          | .err er => .err er
          | .panicked m => .panicked m
      | .err er => .err er
      | .panicked m => .panicked m

end

/-- Assemble the aggregate `RuntimeExpr` from the compiled arguments (the
`compiled_args?` / `get_func` tail of the aggregate arm). -/
def finishAgg (f : AggregateType) (cargs : Outcome (List RuntimeExpr))
    (t : DataType) : Outcome RuntimeExpr :=
  match cargs with
  | .ok l => .ok (.aggregateFunction f (l.map RuntimeExpr.get_func) t)
  | .err e => .err e
  | .panicked m => .panicked m

/-- `compile_expr`: the aggregate form.  `assert_eq!(1, args.len())` aborts
on any other arity; the argument expressions are compiled eagerly (so a
panic inside them fires before the name match), and an unsupported name is
`unimplemented!`. -/
def compile_expr (ctx : ExecutionContext) (expr : Expr) (input_schema : Schema) :
    Outcome RuntimeExpr :=
  match expr with
  | .aggregateFunction name args return_type =>
      if args.length ≠ 1 then
        .panicked "assertion failed: 1 == args.len()"
      else
        match compile_args ctx args input_schema with
        | .panicked m => .panicked m
        | cargs =>
            match rustToLowercase name with
            | "min" => finishAgg .min cargs return_type
            | "max" => finishAgg .max cargs return_type
            | "count" => finishAgg .count cargs return_type
            | "sum" => finishAgg .sum cargs return_type
            | _ => .panicked ("Unsupported aggregate function '" ++ name ++ "'")
  | _ => compile_scalar_expr ctx expr input_schema

/-! ## Projections used to state properties of compile results (which
contain closures and therefore have no decidable equality) -/

/-- Declared output type of a successful compile. -/
def Outcome.typeOf : Outcome RuntimeExpr → Option DataType
  | .ok r => some r.get_type
  | _ => none

/-- Declared output type, requiring the `Compiled` variant. -/
def Outcome.compiledType : Outcome RuntimeExpr → Option DataType
  | .ok (.compiled _ t) => some t
  | _ => none

/-- Declared output type, requiring the `AggregateFunction` variant. -/
def Outcome.aggType : Outcome RuntimeExpr → Option DataType
  | .ok (.aggregateFunction _ _ t) => some t
  | _ => none

/-- Is the outcome `Ok`? -/
def Outcome.isOkay : Outcome α → Bool
  | .ok _ => true
  | _ => false

/-- The abort message, when the computation panicked. -/
def Outcome.panicMsg : Outcome α → Option String
  | .panicked m => some m
  | _ => none

/-- The error value, when the computation returned `Err`. -/
def Outcome.errOf : Outcome α → Option ExecutionError
  | .err e => some e
  | _ => none

/-- Run a compiled expression's closure on a batch. -/
def runCompiledOn (r : Outcome RuntimeExpr) (batch : RecordBatch) : Outcome Value :=
  match r with
  | .ok re => re.get_func batch
  | .err e => .err e
  | .panicked m => .panicked m

/-- Modelled from the spec: "the literal's type" (§4.3 / §9 literal type
inference) — the `DataType` a `ScalarValue` naturally carries. -/
def ScalarValue.scalarType : ScalarValue → Option DataType
  | .booleanS _ => some .boolean
  | .uint8S _ => some .uint8
  | .uint16S _ => some .uint16
  | .uint32S _ => some .uint32
  | .uint64S _ => some .uint64
  | .int8S _ => some .int8
  | .int16S _ => some .int16
  | .int32S _ => some .int32
  | .int64S _ => some .int64
  | .float32S _ => some .float32
  | .float64S _ => some .float64
  | .utf8S _ => some .utf8
  | .nullS => none
/-! ## Local execution sinks (`execute_local` / `execute`) -/

/-- A scanned batch reduced to its printed row lines.  Every sink renders a
row the same way (`row_slice` + `to_string` + comma join, or the per-type CSV
writer); the claims about the sinks concern only which rows are emitted and
how errors propagate, so the model treats an already-rendered batch as a
list of row strings. -/
abbrev Batch := List String

/-- `ExecutionResult`. -/
inductive ExecutionResult where
  | unit
  | count (n : Nat)
  | str (s : String)
deriving DecidableEq, Repr, Inhabited

/-- The sink part of a `PhysicalPlan` (each variant also carries the logical
plan root; the model passes that plan's outcome — the operator tree's scan
output — separately). -/
inductive PhysicalPlanSink where
  | interactive
  | write (kind : String)
  | showCount (count : Nat)
deriving DecidableEq, Repr, Inhabited

/-- The `for_each` drain shared by the Interactive and Write sinks: print
every row of every `Ok` batch; an `Err` batch hits the
`Err(e) => panic!("Error processing row: {:?}", e)` arm (the source's
`//TODO: error handling` sites). -/
def drain_all : List (Except ExecutionError Batch) → Outcome (List String)
  | [] => .ok []
  | .ok batch :: rest => (drain_all rest).bind (fun rows => .ok (batch ++ rows))
  | .error e :: _ => .panicked ("Error processing row: " ++ e.debugFmt)

/-- The Show sink's per-batch loop: `for i in 0..count { if i <
batch.num_rows() { print row i } }`, i.e. the first `count` rows of each
batch; an `Err` batch panics as in `drain_all`. -/
def drain_show_batches (count : Nat) :
    List (Except ExecutionError Batch) → Outcome (List String)
  | [] => .ok []
  | .ok batch :: rest =>
      (drain_show_batches count rest).bind (fun rows => .ok (batch.take count ++ rows))
  | .error e :: _ => .panicked ("Error processing row: " ++ e.debugFmt)

/-- `execute_local`: build the operator tree (its `Result` is the `planned`
argument; a failure propagates through the leading `?`), then drain batches
into the sink.  Returns the execution result paired with the emitted row
lines.  Interactive returns `Count(0)`; csv returns the written row count;
string returns the accumulated text; Show `take`s `count` BATCHES from the
scan and returns `Count(count)` regardless of rows printed; an unknown write
kind panics.  (File creation in the csv arm is I/O and is not modelled.) -/
def execute_local (sink : PhysicalPlanSink)
    (planned : Except ExecutionError (List (Except ExecutionError Batch))) :
    Outcome (ExecutionResult × List String) :=
  match planned with
  | .error e => .err e
  | .ok scanned =>
      match sink with
      | .interactive =>
          (drain_all scanned).bind (fun rows => .ok (.count 0, rows))
      | .write "csv" =>
          (drain_all scanned).bind (fun rows => .ok (.count rows.length, rows))
      | .write "string" =>
          (drain_all scanned).bind (fun rows =>
            .ok (.str (String.join (rows.map (fun r => r ++ "\n"))), rows))
      | .write _ => .panicked "Unknown physical plan output type."
      | .showCount count =>
          (drain_show_batches count (scanned.take count)).bind (fun rows =>
            .ok (.count count, rows))

/-- `execute_remote`: unconditionally the unsupported error. -/
def execute_remote (_etcd : String) : Outcome (ExecutionResult × List String) :=
  .err (.general "Remote execution needs re-implementing since moving to Arrow")

/-- `execute`: under `Local`, delegate to `execute_local`, wrapping a
returned `Err` into a fresh `General` whose message embeds the original
error's `{:?}` formatting (a panic propagates unchanged); under `Remote`,
`execute_remote`. -/
def execute (config : DFConfig) (sink : PhysicalPlanSink)
    (planned : Except ExecutionError (List (Except ExecutionError Batch))) :
    Outcome (ExecutionResult × List String) :=
  match config with
  | .Local =>
      match execute_local sink planned with
      | .ok r => .ok r
      | .err e => .err (.general ("execution failed: " ++ e.debugFmt))
      | .panicked m => .panicked m
  | .Remote etcd => execute_remote etcd

/-- The emitted row lines of a successful local execution. -/
def Outcome.printedRows : Outcome (ExecutionResult × List String) → Option (List String)
  | .ok (_, rows) => some rows
  | _ => none

/-! ## Claim theorems about the compiler and the sinks -/

/-- C3: the claim says the compiled `Literal(s)` expression's declared output
type is the literal's own type.  The evaluator does return `Scalar(s)`
unchanged for every batch, but the declared type is the hard-coded
`DataType::Float64` placeholder (`t: DataType::Float64, //TODO`) for every
literal — here a Utf8 literal, whose own type is Utf8, and an Int64 literal
alike. -/
theorem literal_output_type_is_placeholder :
    Outcome.typeOf (compile_scalar_expr ExecutionContext.localContext
        (.literal (.utf8S "a")) ⟨[]⟩) = some DataType.float64
    ∧ ScalarValue.scalarType (.utf8S "a") = some DataType.utf8
    ∧ DataType.float64 ≠ DataType.utf8
    ∧ runCompiledOn (compile_scalar_expr ExecutionContext.localContext
        (.literal (.utf8S "a")) ⟨[]⟩) ⟨[]⟩ = .ok (.scalar (.utf8S "a"))
    ∧ Outcome.typeOf (compile_scalar_expr ExecutionContext.localContext
        (.literal (.int64S 5)) ⟨[]⟩) = some DataType.float64 := by
  exact ⟨rfl, rfl, by decide, rfl, rfl⟩

/-- C4: the claim says Show{count} prints the same rows as Interactive
truncated to the first `count` rows — at most `count` rows in total,
regardless of batching.  The code instead `take`s `count` BATCHES and prints
up to `count` rows from EACH: on two 3-row batches with `count = 2` it
prints 4 rows (`r1, r2, r4, r5`), while Interactive truncated to 2 rows
prints `r1, r2`. -/
theorem show_truncates_batches_not_rows :
    Outcome.printedRows (execute_local (.showCount 2)
        (.ok [.ok ["r1", "r2", "r3"], .ok ["r4", "r5", "r6"]]))
      = some ["r1", "r2", "r4", "r5"]
    ∧ (Outcome.printedRows (execute_local .interactive
        (.ok [.ok ["r1", "r2", "r3"], .ok ["r4", "r5", "r6"]]))).map
          (fun rows => rows.take 2)
      = some ["r1", "r2"]
    ∧ 2 < (["r1", "r2", "r4", "r5"] : List String).length := by
  exact ⟨rfl, rfl, by decide⟩

/-- C5: the claim says an error result from a batch scan is returned as a
value from `execute`/`execute_local` and draining never aborts by panic.
Every sink's drain loop instead panics on an `Err` batch (the source's
`Err(e) => panic!(..) //TODO: error handling` arms), and `execute` under
Local propagates that panic. -/
theorem drain_panics_on_error_batch :
    execute_local .interactive (.ok [.error (.general "boom")])
      = .panicked "Error processing row: General(\"boom\")"
    ∧ execute_local (.write "csv") (.ok [.error (.general "boom")])
      = .panicked "Error processing row: General(\"boom\")"
    ∧ execute_local (.write "string") (.ok [.error (.general "boom")])
      = .panicked "Error processing row: General(\"boom\")"
    ∧ execute_local (.showCount 1) (.ok [.error (.general "boom")])
      = .panicked "Error processing row: General(\"boom\")"
    ∧ execute .Local .interactive (.ok [.error (.general "boom")])
      = .panicked "Error processing row: General(\"boom\")" := by
  exact ⟨rfl, rfl, rfl, rfl, rfl⟩

/-- C6 counterexample: a table registered under the name `People` is not
found by `get_table_meta` even under that very name (let alone other case
variants): `register` stores the key verbatim while the lookup lowercases
its argument. -/
theorem table_lookup_not_case_insensitive :
    get_table_meta (ExecutionContext.localContext.register "People"
        ⟨⟨[⟨"city", .utf8, false⟩]⟩⟩) "People" = none := by
  decide

/-- C6 (amended): scalar-function registry names are matched
case-insensitively — registration and both lookups lowercase the name, so a
registered function is found under any case variant.  Table lookup is only
half-normalized: `get_table_meta` lowercases the queried name but `register`
stores the name verbatim, so case-variant lookups succeed exactly when the
table was registered under an already-lowercase name; `TableScan` resolution
matches the stored name exactly. -/
theorem registry_lookup_normalization (ctx : ExecutionContext)
    (func : ScalarFunction) (tname v w : String) (df : DataFrame) :
    (rustToLowercase w = rustToLowercase func.name →
      (ctx.register_scalar_function func).load_scalar_function w = .ok func
      ∧ get_function_meta (ctx.register_scalar_function func) w
          = some ⟨func.name, func.args, func.return_type⟩)
    ∧ (rustToLowercase tname = tname → rustToLowercase v = tname →
        get_table_meta (ctx.register tname df) v = some df.schema)
    ∧ table_scan_lookup (ctx.register tname df) tname = some df := by
  refine ⟨fun h => ⟨?_, ?_⟩, fun h1 h2 => ?_, ?_⟩
  · simp [ExecutionContext.load_scalar_function, ExecutionContext.register_scalar_function,
      assocLookup, List.find?, h]
  · simp [get_function_meta, ExecutionContext.register_scalar_function,
      assocLookup, List.find?, h]
  · simp [get_table_meta, ExecutionContext.register, assocLookup, List.find?, h2, h1]
  · simp [table_scan_lookup, ExecutionContext.register, assocLookup, List.find?]

/-- A concrete scalar function used in witnesses (its implementation body is
irrelevant to registry and compile-time checks). -/
def sqrtFunc : ScalarFunction where
  name := "sqrt"
  args := [⟨"n", .float64, false⟩]
  return_type := .float64
  execute := fun _ => .error (.general "implementation not modelled")

/-- Witness for C6 (amended) at concrete inputs: the function registered as
`sqrt` is found under `SQRT`; the table registered as `people` is found by
`get_table_meta` under `PEOPLE` and by `TableScan` resolution under
`people`. -/
theorem registry_lookup_normalization_witness :
    (ExecutionContext.localContext.register_scalar_function sqrtFunc).load_scalar_function
        "SQRT" = .ok sqrtFunc
    ∧ get_function_meta
        (ExecutionContext.localContext.register_scalar_function sqrtFunc) "SQRT"
      = some ⟨"sqrt", [⟨"n", .float64, false⟩], .float64⟩
    ∧ get_table_meta (ExecutionContext.localContext.register "people"
        ⟨⟨[⟨"city", .utf8, false⟩]⟩⟩) "PEOPLE"
      = some ⟨[⟨"city", .utf8, false⟩]⟩
    ∧ table_scan_lookup (ExecutionContext.localContext.register "people"
        ⟨⟨[⟨"city", .utf8, false⟩]⟩⟩) "people"
      = some ⟨⟨[⟨"city", .utf8, false⟩]⟩⟩ := by
  have h1 := (registry_lookup_normalization ExecutionContext.localContext sqrtFunc
    "people" "PEOPLE" "SQRT" ⟨⟨[⟨"city", .utf8, false⟩]⟩⟩).1 (by decide)
  have h2 := (registry_lookup_normalization ExecutionContext.localContext sqrtFunc
    "people" "PEOPLE" "SQRT" ⟨⟨[⟨"city", .utf8, false⟩]⟩⟩).2.1 (by decide) (by decide)
  have h3 := (registry_lookup_normalization ExecutionContext.localContext sqrtFunc
    "people" "PEOPLE" "SQRT" ⟨⟨[⟨"city", .utf8, false⟩]⟩⟩).2.2
  exact ⟨h1.1, h1.2, h2, h3⟩

/-- C10: under the Local configuration, a failing `execute_local` is never
surfaced directly: `execute` returns a fresh `General` error whose message
embeds the original error's debug formatting, and that wrapper never equals
the original error value (so its kind is not matchable by the caller). -/
theorem execute_wraps_local_errors (sink : PhysicalPlanSink)
    (planned : Except ExecutionError (List (Except ExecutionError Batch)))
    (e : ExecutionError) (h : execute_local sink planned = .err e) :
    execute .Local sink planned
      = .err (.general ("execution failed: " ++ e.debugFmt))
    ∧ ExecutionError.general ("execution failed: " ++ e.debugFmt) ≠ e := by
  constructor
  · simp [execute, h]
  · cases e with
    | general s =>
        intro hcontra
        have hmsg : "execution failed: " ++ ExecutionError.debugFmt (.general s) = s :=
          ExecutionError.general.inj hcontra
        have hlen := congrArg String.length hmsg
        simp only [ExecutionError.debugFmt, String.length_append] at hlen
        have l1 : ("execution failed: " : String).length = 18 := rfl
        have l2 : ("General(\"" : String).length = 9 := rfl
        have l3 : ("\")" : String).length = 2 := rfl
        omega
    | ioError s => intro hcontra; cases hcontra

/-- Witness for C10: a plan-construction failure (`No table registered`)
makes `execute_local` return an error, and `execute` wraps it. -/
theorem execute_wraps_local_errors_witness :
    execute .Local .interactive (.error (.general "No table registered as 'people'"))
      = .err (.general "execution failed: General(\"No table registered as 'people'\")")
    ∧ ExecutionError.general
        "execution failed: General(\"No table registered as 'people'\")"
      ≠ ExecutionError.general "No table registered as 'people'" := by
  exact execute_wraps_local_errors .interactive
    (.error (.general "No table registered as 'people'"))
    (.general "No table registered as 'people'") rfl
/-! ## C8 / C9: compile-time checks of function and aggregate calls -/

/-- Output types of a successfully compiled argument list. -/
def Outcome.typesOf : Outcome (List RuntimeExpr) → Option (List DataType)
  | .ok l => some (l.map RuntimeExpr.get_type)
  | _ => none

/-- A compiled argument list has one entry per argument expression. -/
theorem compile_args_length (ctx : ExecutionContext) (s : Schema) :
    ∀ (es : List Expr) (l : List RuntimeExpr),
      compile_args ctx es s = .ok l → l.length = es.length := by
  intro es
  induction es with
  | nil =>
      intro l h
      simp only [compile_args] at h
      cases h
      rfl
  | cons e rest ih =>
      intro l h
      simp only [compile_args] at h
      cases hc : compile_scalar_expr ctx e s with
      | ok r =>
          rw [hc] at h
          cases hr : compile_args ctx rest s with
          | ok rs =>
              rw [hr] at h
              cases h
              simpa using ih rs hr
          | err er => rw [hr] at h; cases h
          | panicked m => rw [hr] at h; cases h
      | err er => rw [hc] at h; cases h
      | panicked m => rw [hc] at h; cases h

/-- The positional type check returns no error exactly when every declared
parameter type equals the corresponding compiled argument's output type. -/
theorem check_arg_types_none_iff (name : String) :
    ∀ (i : Nat) (fs : List Field) (cs : List RuntimeExpr),
      fs.length = cs.length →
      (check_arg_types name i fs cs = none ↔
        ∀ k, k < fs.length →
          (fs.getD k default).data_type
            = (cs.map RuntimeExpr.get_type).getD k DataType.boolean) := by
  intro i fs
  induction fs generalizing i with
  | nil =>
      intro cs hlen
      simp [check_arg_types]
  | cons fld fs ih =>
      intro cs hlen
      cases cs with
      | nil => simp at hlen
      | cons c cs' =>
          have hlen' : fs.length = cs'.length := by simpa using hlen
          simp only [check_arg_types]
          by_cases hne : fld.data_type ≠ c.get_type
          · rw [if_pos hne]
            constructor
            · intro h; simp at h
            · intro h
              exfalso
              have h0 := h 0 (by simp)
              simp only [List.getD_cons_zero, List.map_cons] at h0
              exact hne h0
          · rw [if_neg hne]
            rw [ih (i + 1) cs' hlen']
            constructor
            · intro h k hk
              cases k with
              | zero =>
                  simpa using not_not.mp (fun hcon => hne hcon)
              | succ k' =>
                  have hk' : k' < fs.length := by simpa using hk
                  simpa using h k' hk'
            · intro h k hk
              have := h (k + 1) (by simpa using hk)
              simpa using this

/-- C8: the `ScalarFunction(name, args, return_type)` arm of
`compile_scalar_expr` resolves the implementation by lowercased name
(erroring when absent); it returns an error value when the argument count
differs from the registered function's declared arity, and when some
compiled argument's output type differs from the declared type of the
corresponding positional parameter; when every check passes it returns a
`Compiled` expression whose declared output type is `return_type`. -/
theorem scalar_function_compile_checks (ctx : ExecutionContext) (name : String)
    (args : List Expr) (return_type : DataType) (s : Schema) :
    (assocLookup ctx.functions (rustToLowercase name) = none →
      compile_scalar_expr ctx (.scalarFunction name args return_type) s
        = .err (.general ("Unknown scalar function " ++ name)))
    ∧ ∀ f, assocLookup ctx.functions (rustToLowercase name) = some f →
        ((f.args.length ≠ args.length →
          compile_scalar_expr ctx (.scalarFunction name args return_type) s
            = .err (.general ("Function " ++ name ++ " requires "
                ++ toString f.args.length ++ " parameters but "
                ++ toString args.length ++ " were provided")))
        ∧ ∀ ts, f.args.length = args.length →
            Outcome.typesOf (compile_args ctx args s) = some ts →
            (((∃ k, k < f.args.length ∧
                (f.args.getD k default).data_type ≠ ts.getD k DataType.boolean) →
              ∃ er, compile_scalar_expr ctx (.scalarFunction name args return_type) s
                  = .err er)
            ∧ ((∀ k, k < f.args.length →
                (f.args.getD k default).data_type = ts.getD k DataType.boolean) →
              Outcome.compiledType
                  (compile_scalar_expr ctx (.scalarFunction name args return_type) s)
                = some return_type))) := by
  constructor
  · intro hnone
    simp [compile_scalar_expr, ExecutionContext.load_scalar_function, hnone]
  · intro f hsome
    constructor
    · intro hne
      simp only [compile_scalar_expr, ExecutionContext.load_scalar_function, hsome]
      rw [if_pos hne]
    · intro ts hlen htypes
      obtain ⟨cs, hcs, hts⟩ :
          ∃ cs, compile_args ctx args s = .ok cs
            ∧ cs.map RuntimeExpr.get_type = ts := by
        cases hca : compile_args ctx args s with
        | ok l =>
            rw [hca] at htypes
            simp only [Outcome.typesOf, Option.some.injEq] at htypes
            exact ⟨l, rfl, htypes⟩
        | err e => rw [hca] at htypes; simp [Outcome.typesOf] at htypes
        | panicked m => rw [hca] at htypes; simp [Outcome.typesOf] at htypes
      have hlencs : cs.length = args.length := compile_args_length ctx s args cs hcs
      have hlen2 : f.args.length = cs.length := by omega
      constructor
      · rintro ⟨k, hk, hkne⟩
        have hcheck : check_arg_types name 0 f.args cs ≠ none := by
          intro hnone
          have hall := (check_arg_types_none_iff name 0 f.args cs hlen2).mp hnone
          exact hkne (by rw [← hts]; exact hall k hk)
        cases hchk : check_arg_types name 0 f.args cs with
        | none => exact absurd hchk hcheck
        | some er =>
            refine ⟨er, ?_⟩
            simp only [compile_scalar_expr, ExecutionContext.load_scalar_function, hsome]
            rw [if_neg (not_not_intro hlen)]
            simp [Outcome.bind, hcs, hchk]
      · intro hall
        have hcheck : check_arg_types name 0 f.args cs = none := by
          rw [check_arg_types_none_iff name 0 f.args cs hlen2]
          intro k hk
          rw [hts]
          exact hall k hk
        simp only [compile_scalar_expr, ExecutionContext.load_scalar_function, hsome]
        rw [if_neg (not_not_intro hlen)]
        simp [Outcome.bind, hcs, hcheck, Outcome.compiledType]

/-- Witness for C8 against a context with `sqrt(Float64) -> Float64`
registered: an unknown name errors; `SQRT` with zero arguments errors on
arity; `SQRT` over a Utf8 column errors on the argument type; `SQRT` over a
literal (whose compiled type is the Float64 placeholder) compiles with
output type Float64. -/
theorem scalar_function_compile_checks_witness :
    compile_scalar_expr (ExecutionContext.localContext.register_scalar_function sqrtFunc)
        (.scalarFunction "nosuch" [] .float64) ⟨[]⟩
      = .err (.general ("Unknown scalar function " ++ "nosuch"))
    ∧ compile_scalar_expr (ExecutionContext.localContext.register_scalar_function sqrtFunc)
        (.scalarFunction "SQRT" [] .float64) ⟨[]⟩
      = .err (.general ("Function " ++ "SQRT" ++ " requires "
          ++ toString sqrtFunc.args.length ++ " parameters but "
          ++ toString ([] : List Expr).length ++ " were provided"))
    ∧ (∃ er, compile_scalar_expr
          (ExecutionContext.localContext.register_scalar_function sqrtFunc)
          (.scalarFunction "SQRT" [.column 0] .float64) ⟨[⟨"c", .utf8, false⟩]⟩
        = .err er)
    ∧ Outcome.compiledType (compile_scalar_expr
          (ExecutionContext.localContext.register_scalar_function sqrtFunc)
          (.scalarFunction "SQRT" [.literal (.float64S 2)] .float64) ⟨[]⟩)
      = some .float64 := by
  refine ⟨?_, ?_, ?_, ?_⟩
  · exact (scalar_function_compile_checks
      (ExecutionContext.localContext.register_scalar_function sqrtFunc)
      "nosuch" [] .float64 ⟨[]⟩).1 rfl
  · exact ((scalar_function_compile_checks
      (ExecutionContext.localContext.register_scalar_function sqrtFunc)
      "SQRT" [] .float64 ⟨[]⟩).2 sqrtFunc rfl).1 (by decide)
  · exact (((scalar_function_compile_checks
      (ExecutionContext.localContext.register_scalar_function sqrtFunc)
      "SQRT" [.column 0] .float64
      ⟨[⟨"c", .utf8, false⟩]⟩).2 sqrtFunc rfl).2 [.utf8] rfl rfl).1
      ⟨0, by decide, by decide⟩
  · exact (((scalar_function_compile_checks
      (ExecutionContext.localContext.register_scalar_function sqrtFunc)
      "SQRT" [.literal (.float64S 2)]
      .float64 ⟨[]⟩).2 sqrtFunc rfl).2 [.float64] rfl rfl).2
      (by intro k hk
          have hone : sqrtFunc.args.length = 1 := rfl
          have hk0 : k = 0 := by omega
          subst hk0; rfl)

/-- C9 counterexample: `compile_expr` on `min` with exactly ONE argument and
a supported name still fails to return an `AggregateFunction` runtime
expression when that argument is itself an aggregate — compiling the
argument reaches `compile_scalar_expr`'s aggregate arm and aborts. -/
theorem aggregate_single_arg_not_always_built :
    Outcome.panicMsg (compile_expr ExecutionContext.localContext
        (.aggregateFunction "min" [.aggregateFunction "min" [.column 0] .int64] .int64)
        ⟨[]⟩)
      = some "Aggregate expressions cannot be compiled yet" := rfl

/-- C9 (amended): `compile_expr` on an aggregate call requires exactly one
argument by assertion — a call with zero or more than one argument aborts by
failed assertion rather than returning an error value; with exactly one
argument that itself compiles successfully as a scalar expression and a name
among min/max/count/sum in any letter case, it returns an
`AggregateFunction` runtime expression carrying the declared return type. -/
theorem aggregate_compile_asserts_single_arg (ctx : ExecutionContext)
    (name : String) (args : List Expr) (arg : Expr) (return_type : DataType)
    (s : Schema) :
    (args.length ≠ 1 →
      compile_expr ctx (.aggregateFunction name args return_type) s
        = .panicked "assertion failed: 1 == args.len()")
    ∧ ((rustToLowercase name = "min" ∨ rustToLowercase name = "max"
        ∨ rustToLowercase name = "count" ∨ rustToLowercase name = "sum") →
      Outcome.isOkay (compile_scalar_expr ctx arg s) = true →
      Outcome.aggType (compile_expr ctx (.aggregateFunction name [arg] return_type) s)
        = some return_type) := by
  constructor
  · intro hne
    simp only [compile_expr]
    rw [if_pos hne]
  · intro hname hok
    obtain ⟨r, hr⟩ : ∃ r, compile_scalar_expr ctx arg s = .ok r := by
      cases h : compile_scalar_expr ctx arg s with
      | ok r => exact ⟨r, rfl⟩
      | err e => rw [h] at hok; simp [Outcome.isOkay] at hok
      | panicked m => rw [h] at hok; simp [Outcome.isOkay] at hok
    have hargs : compile_args ctx [arg] s = .ok [r] := by
      simp [compile_args, hr]
    simp only [compile_expr]
    rw [if_neg (by simp)]
    rw [hargs]
    rcases hname with h | h | h | h <;>
      rw [h] <;> simp [finishAgg, Outcome.aggType]

/-- Witness for C9 (amended): a zero-argument `min` call aborts by
assertion; a one-argument `MIN` over a column yields an aggregate runtime
expression typed with the declared return type. -/
theorem aggregate_compile_asserts_single_arg_witness :
    compile_expr ExecutionContext.localContext
        (.aggregateFunction "min" [] .int64) ⟨[]⟩
      = .panicked "assertion failed: 1 == args.len()"
    ∧ Outcome.aggType (compile_expr ExecutionContext.localContext
        (.aggregateFunction "MIN" [.column 0] .int64) ⟨[⟨"c", .int64, false⟩]⟩)
      = some .int64 := by
  constructor
  · exact (aggregate_compile_asserts_single_arg ExecutionContext.localContext
      "min" [] (.column 0) .int64 ⟨[]⟩).1 (by decide)
  · exact (aggregate_compile_asserts_single_arg ExecutionContext.localContext
      "MIN" [] (.column 0) .int64 ⟨[⟨"c", .int64, false⟩]⟩).2
      (Or.inl (by decide)) rfl

end DFusion
